import Mathlib

/-!
Shallow embedding of the network topology builder of
`fpiyapol/pulumi-aws-infrastructure`.

The program is a declarative infrastructure-as-code transform: it reads a
`NetworkConfig` and constructs resource descriptions (VPC, subnets, NAT
gateway with its elastic IP, internet gateway, route tables, routes and
subnet/route-table associations), wiring them together through
provider-assigned output attributes (ids, allocation ids, ...).

Embedding choices:
- Each `new Resource(name, args)` call becomes the construction of a plain
  record holding the logical resource name and the argument fields.
- Provider-assigned output attributes (`.id`, `.vpcId`, `.allocationId`,
  `.routeTableId`) are modelled symbolically as a `Ref`: the pair of the
  logical resource name and the attribute name.  Two refs are equal exactly
  when they denote the same attribute of the same resource.
- TypeScript `availabilityZones[index]` past the end of the array yields
  `undefined`; this is modelled by `List.getElem?` returning `none`.
  Template interpolation of `undefined` yields the literal string
  "undefined", modelled by `jsInterp`.
- `createdPublicSubnets[0].id` on an empty array throws a TypeError in
  JavaScript; the embedding of the full builder therefore returns
  `Option Network`, with `none` on that access.
-/

/-- A resource tag, `interface Tag` of `config.ts`. -/
structure Tag where
  key : String
  value : String
deriving Repr, DecidableEq

/-- Per-boundary subnet configuration, `interface SubnetConfig` of
`config.ts`; `tags` is optional in the source, hence `Option`. -/
structure SubnetConfig where
  cidrBlocks : List String
  tags : Option (List Tag)
deriving Repr, DecidableEq

/-- Network configuration, `interface NetworkConfig` of `config.ts`. -/
structure NetworkConfig where
  name : String
  cidrBlock : String
  availabilityZones : List String
  publicSubnet : SubnetConfig
  privateSubnet : SubnetConfig
deriving Repr, DecidableEq

/-- A symbolic reference to a provider-assigned output attribute of a
created resource: the logical resource name together with the attribute
name read from the handle. -/
structure Ref where
  resource : String
  attr : String
deriving Repr, DecidableEq

/-- Description of an `aws_native.ec2.VPC` resource. -/
structure VPC where
  name : String
  cidrBlock : String
  tags : List Tag
deriving Repr, DecidableEq

/-- The `vpcId` output attribute of a VPC handle. -/
def VPC.vpcId (v : VPC) : Ref := ⟨v.name, "vpcId"⟩

/-- Description of an `aws_native.ec2.Subnet` resource.  The
`availabilityZone` argument may be the JavaScript `undefined` (when the
index is past the end of `availabilityZones`), hence `Option`. -/
structure Subnet where
  name : String
  availabilityZone : Option String
  cidrBlock : String
  vpcId : Ref
  tags : List Tag
deriving Repr, DecidableEq

/-- The `id` output attribute of a subnet handle. -/
def Subnet.id (s : Subnet) : Ref := ⟨s.name, "id"⟩

/-- Description of an `aws_native.ec2.EIP` resource. -/
structure EIP where
  name : String
  tags : List Tag
deriving Repr, DecidableEq

/-- The `allocationId` output attribute of an elastic-IP handle. -/
def EIP.allocationId (e : EIP) : Ref := ⟨e.name, "allocationId"⟩

/-- Description of an `aws_native.ec2.NatGateway` resource. -/
structure NatGateway where
  name : String
  allocationId : Ref
  subnetId : Ref
  tags : List Tag
deriving Repr, DecidableEq

/-- The `id` output attribute of a NAT-gateway handle. -/
def NatGateway.id (n : NatGateway) : Ref := ⟨n.name, "id"⟩

/-- Description of an `aws_classic.ec2.InternetGateway` resource. -/
structure InternetGateway where
  name : String
  vpcId : Ref
  tags : List Tag
deriving Repr, DecidableEq

/-- The `id` output attribute of an internet-gateway handle. -/
def InternetGateway.id (g : InternetGateway) : Ref := ⟨g.name, "id"⟩

/-- Description of an `aws_native.ec2.RouteTable` resource. -/
structure RouteTable where
  name : String
  vpcId : Ref
  tags : List Tag
deriving Repr, DecidableEq

/-- The `id` output attribute of a route-table handle. -/
def RouteTable.id (rt : RouteTable) : Ref := ⟨rt.name, "id"⟩

/-- The `routeTableId` output attribute of a route-table handle (used by
the private associations in the source, where the public ones use `id`). -/
def RouteTable.routeTableId (rt : RouteTable) : Ref := ⟨rt.name, "routeTableId"⟩

/-- Description of an `aws_classic.ec2.Route` resource.  Exactly one of
`gatewayId` / `natGatewayId` is set by the source, hence both `Option`. -/
structure Route where
  name : String
  destinationCidrBlock : String
  gatewayId : Option Ref
  natGatewayId : Option Ref
  routeTableId : Ref
deriving Repr, DecidableEq

/-- Description of an `aws_native.ec2.SubnetRouteTableAssociation`. -/
structure SubnetRouteTableAssociation where
  name : String
  subnetId : Ref
  routeTableId : Ref
deriving Repr, DecidableEq

/-- The boundary enum of `network.ts`. -/
inductive Boundary where
  | PRIVATE
  | PUBLIC
deriving Repr, DecidableEq

/-- String value of the boundary enum members. -/
def Boundary.str : Boundary → String
  | .PRIVATE => "private"
  | .PUBLIC => "public"

/-- Arguments of `createSubnets`, `interface SubnetsArgs` of `network.ts`. -/
structure SubnetsArgs where
  availabilityZones : List String
  boundary : Boundary
  name : String
  subnetConfig : SubnetConfig
  vpcId : Ref
deriving Repr, DecidableEq

/-- JavaScript template interpolation of a possibly-`undefined` string:
`undefined` prints as the literal text "undefined". -/
def jsInterp : Option String → String
  | some s => s
  | none => "undefined"

/-- The body of the arrow function mapped over `cidrBlocks` in
`createSubnets`: builds the subnet description for a given index and CIDR
block.  `availabilityZones[index]` is the JS indexing that can yield
`undefined`. -/
def subnetAt (a : SubnetsArgs) (index : Nat) (cidrBlock : String) : Subnet :=
  let availabilityZone := a.availabilityZones[index]?
  let subnetName :=
    a.name ++ "-" ++ a.boundary.str ++ "-subnet-" ++ jsInterp availabilityZone
  { name := subnetName
    availabilityZone := availabilityZone
    cidrBlock := cidrBlock
    vpcId := a.vpcId
    tags := a.subnetConfig.tags.getD [] ++ [⟨"Name", subnetName⟩] }

/-- `createSubnets` of `network.ts`: maps over `cidrBlocks` with the
element index, exactly as `cidrBlocks.map((cidrBlock, index) => ...)`. -/
def createSubnets (subnetsArgs : SubnetsArgs) : List Subnet :=
  subnetsArgs.subnetConfig.cidrBlocks.enum.map fun p =>
    subnetAt subnetsArgs p.1 p.2

/-- The output bundle, `interface Network` of the full `network.ts`. -/
structure Network where
  internetGateway : InternetGateway
  natGateway : NatGateway
  natGatewayEip : EIP
  privateRoute : Route
  privateRouteAssociations : List SubnetRouteTableAssociation
  privateRouteTable : RouteTable
  privateSubnets : List Subnet
  publicRoute : Route
  publicRouteAssociations : List SubnetRouteTableAssociation
  publicRouteTable : RouteTable
  publicSubnets : List Subnet
  vpc : VPC
deriving Repr, DecidableEq

/-- `create` of the full `network.ts`.  Returns `none` exactly when the
JavaScript original would throw on `createdPublicSubnets[0].id` (empty
public subnet list); otherwise the bundle, built in source order. -/
def create (networkConfig : NetworkConfig) : Option Network :=
  let name := networkConfig.name
  let vpcName := name ++ "-vpc"
  let createdVpc : VPC :=
    { name := vpcName
      cidrBlock := networkConfig.cidrBlock
      tags := [⟨"Name", vpcName⟩] }
  let vpcId := createdVpc.vpcId
  let createdPrivateSubnets := createSubnets
    { availabilityZones := networkConfig.availabilityZones
      boundary := Boundary.PRIVATE
      name := name
      subnetConfig := networkConfig.privateSubnet
      vpcId := vpcId }
  let createdPublicSubnets := createSubnets
    { availabilityZones := networkConfig.availabilityZones
      boundary := Boundary.PUBLIC
      name := name
      subnetConfig := networkConfig.publicSubnet
      vpcId := vpcId }
  let eipNatName := name ++ "-eip-nat"
  let createdEipNat : EIP :=
    { name := eipNatName, tags := [⟨"Name", eipNatName⟩] }
  match createdPublicSubnets[0]? with
  | none => none
  | some firstPublicSubnet =>
    let natName := name ++ "-nat"
    let createdNatGateway : NatGateway :=
      { name := natName
        allocationId := createdEipNat.allocationId
        subnetId := firstPublicSubnet.id
        tags := [⟨"Name", natName⟩] }
    let igwName := name ++ "-igw"
    let createdInternetGateway : InternetGateway :=
      { name := igwName, vpcId := vpcId, tags := [⟨"Name", igwName⟩] }
    let publicRouteTableName := name ++ "-public-rtb"
    let createdPublicRouteTable : RouteTable :=
      { name := publicRouteTableName
        vpcId := vpcId
        tags := [⟨"Name", publicRouteTableName⟩] }
    let createdPublicRoute : Route :=
      { name := name ++ "-public-route"
        destinationCidrBlock := "0.0.0.0/0"
        gatewayId := some createdInternetGateway.id
        natGatewayId := none
        routeTableId := createdPublicRouteTable.id }
    let createdPublicRouteTableAssociations :=
      createdPublicSubnets.enum.map fun p =>
        ({ name := name ++ "-" ++ Boundary.PUBLIC.str ++ "-rtb-assc-" ++
              toString p.1
           subnetId := p.2.id
           routeTableId := createdPublicRouteTable.id } :
          SubnetRouteTableAssociation)
    let privateRouteTableName := name ++ "-private-rtb"
    let createdPrivateRouteTable : RouteTable :=
      { name := privateRouteTableName
        vpcId := vpcId
        tags := [⟨"Name", privateRouteTableName⟩] }
    let createdPrivateRoute : Route :=
      { name := name ++ "-private-route"
        destinationCidrBlock := "0.0.0.0/0"
        gatewayId := none
        natGatewayId := some createdNatGateway.id
        routeTableId := createdPrivateRouteTable.id }
    let createdPrivateRouteTableAssociations :=
      createdPrivateSubnets.enum.map fun p =>
        ({ name := name ++ "-" ++ Boundary.PRIVATE.str ++ "-rtb-assc-" ++
              toString p.1
           subnetId := p.2.id
           routeTableId := createdPrivateRouteTable.routeTableId } :
          SubnetRouteTableAssociation)
    some
      { internetGateway := createdInternetGateway
        natGateway := createdNatGateway
        natGatewayEip := createdEipNat
        privateRoute := createdPrivateRoute
        privateRouteAssociations := createdPrivateRouteTableAssociations
        privateRouteTable := createdPrivateRouteTable
        privateSubnets := createdPrivateSubnets
        publicRoute := createdPublicRoute
        publicRouteAssociations := createdPublicRouteTableAssociations
        publicRouteTable := createdPublicRouteTable
        publicSubnets := createdPublicSubnets
        vpc := createdVpc }

/-- The output bundle of the VPC-only variant of `network.ts`. -/
structure NetworkVpcOnly where
  vpc : VPC
deriving Repr, DecidableEq

/-- `create` of the VPC-only variant: builds just the VPC. -/
def createVpcOnly (networkConfig : NetworkConfig) : NetworkVpcOnly :=
  let name := networkConfig.name
  let vpcName := name ++ "-vpc"
  let createdVpc : VPC :=
    { name := vpcName
      cidrBlock := networkConfig.cidrBlock
      tags := [⟨"Name", vpcName⟩] }
  { vpc := createdVpc }

/-- The output bundle of the VPC-plus-subnets variant. -/
structure NetworkVpcSubnets where
  vpc : VPC
  privateSubnets : List Subnet
  publicSubnets : List Subnet
deriving Repr, DecidableEq

/-- `create` of the VPC-plus-subnets variant: VPC, then private subnets,
then public subnets, with the same `createSubnets` helper. -/
def createVpcSubnets (networkConfig : NetworkConfig) : NetworkVpcSubnets :=
  let name := networkConfig.name
  let vpcName := name ++ "-vpc"
  let createdVpc : VPC :=
    { name := vpcName
      cidrBlock := networkConfig.cidrBlock
      tags := [⟨"Name", vpcName⟩] }
  let vpcId := createdVpc.vpcId
  let createdPrivateSubnets := createSubnets
    { availabilityZones := networkConfig.availabilityZones
      boundary := Boundary.PRIVATE
      name := name
      subnetConfig := networkConfig.privateSubnet
      vpcId := vpcId }
  let createdPublicSubnets := createSubnets
    { availabilityZones := networkConfig.availabilityZones
      boundary := Boundary.PUBLIC
      name := name
      subnetConfig := networkConfig.publicSubnet
      vpcId := vpcId }
  { vpc := createdVpc
    privateSubnets := createdPrivateSubnets
    publicSubnets := createdPublicSubnets }

/-! ### Helper abbreviations and unfolding lemmas -/

/-- The VPC description the builders construct for a configuration. -/
def vpcOf (c : NetworkConfig) : VPC :=
  { name := c.name ++ "-vpc"
    cidrBlock := c.cidrBlock
    tags := [⟨"Name", c.name ++ "-vpc"⟩] }

/-- The `SubnetsArgs` value the builders pass to `createSubnets` for a
given boundary. -/
def subnetsArgsOf (c : NetworkConfig) (b : Boundary) : SubnetsArgs :=
  { availabilityZones := c.availabilityZones
    boundary := b
    name := c.name
    subnetConfig :=
      match b with
      | .PRIVATE => c.privateSubnet
      | .PUBLIC => c.publicSubnet
    vpcId := (vpcOf c).vpcId }

/-- The bundle the full builder returns, given the first public subnet. -/
def bundleOf (c : NetworkConfig) (firstPublicSubnet : Subnet) : Network :=
  let name := c.name
  let createdPrivateSubnets := createSubnets (subnetsArgsOf c .PRIVATE)
  let createdPublicSubnets := createSubnets (subnetsArgsOf c .PUBLIC)
  let eipNatName := name ++ "-eip-nat"
  let createdEipNat : EIP :=
    { name := eipNatName, tags := [⟨"Name", eipNatName⟩] }
  let natName := name ++ "-nat"
  let createdNatGateway : NatGateway :=
    { name := natName
      allocationId := createdEipNat.allocationId
      subnetId := firstPublicSubnet.id
      tags := [⟨"Name", natName⟩] }
  let igwName := name ++ "-igw"
  let createdInternetGateway : InternetGateway :=
    { name := igwName, vpcId := (vpcOf c).vpcId, tags := [⟨"Name", igwName⟩] }
  let publicRouteTableName := name ++ "-public-rtb"
  let createdPublicRouteTable : RouteTable :=
    { name := publicRouteTableName
      vpcId := (vpcOf c).vpcId
      tags := [⟨"Name", publicRouteTableName⟩] }
  let privateRouteTableName := name ++ "-private-rtb"
  let createdPrivateRouteTable : RouteTable :=
    { name := privateRouteTableName
      vpcId := (vpcOf c).vpcId
      tags := [⟨"Name", privateRouteTableName⟩] }
  { internetGateway := createdInternetGateway
    natGateway := createdNatGateway
    natGatewayEip := createdEipNat
    privateRoute :=
      { name := name ++ "-private-route"
        destinationCidrBlock := "0.0.0.0/0"
        gatewayId := none
        natGatewayId := some createdNatGateway.id
        routeTableId := createdPrivateRouteTable.id }
    privateRouteAssociations :=
      createdPrivateSubnets.enum.map fun p =>
        { name := name ++ "-" ++ Boundary.PRIVATE.str ++ "-rtb-assc-" ++
            toString p.1
          subnetId := p.2.id
          routeTableId := createdPrivateRouteTable.routeTableId }
    privateRouteTable := createdPrivateRouteTable
    privateSubnets := createdPrivateSubnets
    publicRoute :=
      { name := name ++ "-public-route"
        destinationCidrBlock := "0.0.0.0/0"
        gatewayId := some createdInternetGateway.id
        natGatewayId := none
        routeTableId := createdPublicRouteTable.id }
    publicRouteAssociations :=
      createdPublicSubnets.enum.map fun p =>
        { name := name ++ "-" ++ Boundary.PUBLIC.str ++ "-rtb-assc-" ++
            toString p.1
          subnetId := p.2.id
          routeTableId := createdPublicRouteTable.id }
    publicRouteTable := createdPublicRouteTable
    publicSubnets := createdPublicSubnets
    vpc := vpcOf c }

lemma create_eq_map (c : NetworkConfig) :
    create c =
      ((createSubnets (subnetsArgsOf c .PUBLIC))[0]?).map (bundleOf c) := by
  unfold create
  cases h : (createSubnets (subnetsArgsOf c .PUBLIC))[0]? with
  | none =>
      simp only [subnetsArgsOf, vpcOf, VPC.vpcId] at h
      simp [h, subnetsArgsOf, vpcOf, VPC.vpcId]
  | some s0 =>
      simp only [subnetsArgsOf, vpcOf, VPC.vpcId] at h
      simp [h, bundleOf, subnetsArgsOf, vpcOf, VPC.vpcId]

lemma create_eq_some (c : NetworkConfig) (net : Network)
    (h : create c = some net) :
    ∃ s0, (createSubnets (subnetsArgsOf c .PUBLIC))[0]? = some s0 ∧
      net = bundleOf c s0 := by
  rw [create_eq_map] at h
  rcases Option.map_eq_some'.mp h with ⟨s0, h0, hb⟩
  exact ⟨s0, h0, hb.symm⟩

lemma length_createSubnets (a : SubnetsArgs) :
    (createSubnets a).length = a.subnetConfig.cidrBlocks.length := by
  simp [createSubnets]

lemma getElem?_createSubnets (a : SubnetsArgs) (i : Nat) :
    (createSubnets a)[i]? =
      (a.subnetConfig.cidrBlocks[i]?).map (subnetAt a i) := by
  cases hx : a.subnetConfig.cidrBlocks[i]? <;>
    simp [createSubnets, List.getElem?_enum, hx, Function.comp]

lemma mem_createSubnets (a : SubnetsArgs) (s : Subnet)
    (h : s ∈ createSubnets a) :
    ∃ i cb, a.subnetConfig.cidrBlocks[i]? = some cb ∧ s = subnetAt a i cb := by
  rcases List.mem_map.mp h with ⟨p, hp, hs⟩
  refine ⟨p.1, p.2, ?_, hs.symm⟩
  rcases List.mem_iff_getElem?.mp hp with ⟨j, hj⟩
  have := List.getElem?_enum a.subnetConfig.cidrBlocks j
  rw [hj] at this
  cases hc : a.subnetConfig.cidrBlocks[j]? with
  | none => rw [hc] at this; simp at this
  | some cb =>
      rw [hc] at this
      simp at this
      subst this
      simpa using hc

lemma subnet_name_pub_ne_priv (n x y : String) :
    n ++ "-" ++ Boundary.PUBLIC.str ++ "-subnet-" ++ x ≠
      n ++ "-" ++ Boundary.PRIVATE.str ++ "-subnet-" ++ y := by
  intro h
  have h2 := congrArg String.data h
  simp [Boundary.str, String.data_append] at h2

lemma rtb_name_pub_ne_priv (n : String) :
    n ++ "-public-rtb" ≠ n ++ "-private-rtb" := by
  intro h
  have h2 := congrArg String.data h
  simp [String.data_append] at h2

lemma createSubnets_getElem?_eq_none (a : SubnetsArgs) :
    (createSubnets a)[0]? = none ↔ a.subnetConfig.cidrBlocks = [] := by
  rw [getElem?_createSubnets, Option.map_eq_none']
  cases a.subnetConfig.cidrBlocks <;> simp

/-- The example configuration given in the specification: name `dev`,
VPC CIDR `10.0.0.0/16`, two availability zones. -/
def devConfig : NetworkConfig :=
  { name := "dev"
    cidrBlock := "10.0.0.0/16"
    availabilityZones := ["a", "b"]
    publicSubnet :=
      { cidrBlocks := ["10.0.1.0/24", "10.0.2.0/24"], tags := none }
    privateSubnet :=
      { cidrBlocks := ["10.0.3.0/24", "10.0.4.0/24"], tags := none } }

/-- The bundle the full builder produces on `devConfig`. -/
def devNet : Network :=
  bundleOf devConfig (subnetAt (subnetsArgsOf devConfig .PUBLIC) 0 "10.0.1.0/24")

/-! ### Claim theorems -/

/-- C1: for every configuration satisfying the cardinality invariant
(availabilityZones, public cidrBlocks and private cidrBlocks all of equal
length), the bundle returned by `create` has exactly
`availabilityZones.length` public and private subnets, and the i-th subnet
of each boundary carries that boundary's i-th CIDR block and the i-th
availability zone. -/
theorem C1_subnet_fanout (c : NetworkConfig) (net : Network)
    (hpub : c.availabilityZones.length = c.publicSubnet.cidrBlocks.length)
    (hpriv : c.availabilityZones.length = c.privateSubnet.cidrBlocks.length)
    (h : create c = some net) :
    net.publicSubnets.length = c.availabilityZones.length ∧
    net.privateSubnets.length = c.availabilityZones.length ∧
    (∀ (i : Nat) (s : Subnet), net.publicSubnets[i]? = some s →
      c.publicSubnet.cidrBlocks[i]? = some s.cidrBlock ∧
      c.availabilityZones[i]? = s.availabilityZone) ∧
    (∀ (i : Nat) (s : Subnet), net.privateSubnets[i]? = some s →
      c.privateSubnet.cidrBlocks[i]? = some s.cidrBlock ∧
      c.availabilityZones[i]? = s.availabilityZone) := by
  obtain ⟨s0, h0, rfl⟩ := create_eq_some c net h
  refine ⟨?_, ?_, ?_, ?_⟩
  · simp [bundleOf, length_createSubnets, subnetsArgsOf, hpub]
  · simp [bundleOf, length_createSubnets, subnetsArgsOf, hpriv]
  · intro i s hs
    simp only [bundleOf] at hs
    rw [getElem?_createSubnets] at hs
    rcases Option.map_eq_some'.mp hs with ⟨cb, hcb, hsub⟩
    subst hsub
    simp only [subnetsArgsOf] at hcb ⊢
    exact ⟨hcb, by simp [subnetAt, subnetsArgsOf]⟩
  · intro i s hs
    simp only [bundleOf] at hs
    rw [getElem?_createSubnets] at hs
    rcases Option.map_eq_some'.mp hs with ⟨cb, hcb, hsub⟩
    subst hsub
    simp only [subnetsArgsOf] at hcb ⊢
    exact ⟨hcb, by simp [subnetAt, subnetsArgsOf]⟩

/-- Witness for C1: the specification's example configuration (name `dev`,
two availability zones) instantiates every hypothesis of
`C1_subnet_fanout`. -/
theorem C1_subnet_fanout_witness :
    (devConfig.availabilityZones.length =
        devConfig.publicSubnet.cidrBlocks.length ∧
     devConfig.availabilityZones.length =
        devConfig.privateSubnet.cidrBlocks.length ∧
     create devConfig = some devNet) ∧
    (devNet.publicSubnets.length = devConfig.availabilityZones.length ∧
     devNet.privateSubnets.length = devConfig.availabilityZones.length ∧
     (∀ (i : Nat) (s : Subnet), devNet.publicSubnets[i]? = some s →
       devConfig.publicSubnet.cidrBlocks[i]? = some s.cidrBlock ∧
       devConfig.availabilityZones[i]? = s.availabilityZone) ∧
     (∀ (i : Nat) (s : Subnet), devNet.privateSubnets[i]? = some s →
       devConfig.privateSubnet.cidrBlocks[i]? = some s.cidrBlock ∧
       devConfig.availabilityZones[i]? = s.availabilityZone)) :=
  ⟨⟨by decide, by decide, by decide⟩,
    C1_subnet_fanout devConfig devNet (by decide) (by decide) (by decide)⟩

/-- C4: the public route of every returned bundle sits in the public route
table, has destination `0.0.0.0/0` and targets the internet gateway; the
private route sits in the private route table, has destination `0.0.0.0/0`
and targets the NAT gateway. -/
theorem C4_default_routes (c : NetworkConfig) (net : Network)
    (h : create c = some net) :
    net.publicRoute.routeTableId = net.publicRouteTable.id ∧
    net.publicRoute.destinationCidrBlock = "0.0.0.0/0" ∧
    net.publicRoute.gatewayId = some net.internetGateway.id ∧
    net.publicRoute.natGatewayId = none ∧
    net.privateRoute.routeTableId = net.privateRouteTable.id ∧
    net.privateRoute.destinationCidrBlock = "0.0.0.0/0" ∧
    net.privateRoute.natGatewayId = some net.natGateway.id ∧
    net.privateRoute.gatewayId = none := by
  obtain ⟨s0, h0, rfl⟩ := create_eq_some c net h
  simp [bundleOf]

/-- Witness for C4 at the specification's example configuration. -/
theorem C4_default_routes_witness :
    create devConfig = some devNet ∧
    (devNet.publicRoute.routeTableId = devNet.publicRouteTable.id ∧
     devNet.publicRoute.destinationCidrBlock = "0.0.0.0/0" ∧
     devNet.publicRoute.gatewayId = some devNet.internetGateway.id ∧
     devNet.publicRoute.natGatewayId = none ∧
     devNet.privateRoute.routeTableId = devNet.privateRouteTable.id ∧
     devNet.privateRoute.destinationCidrBlock = "0.0.0.0/0" ∧
     devNet.privateRoute.natGatewayId = some devNet.natGateway.id ∧
     devNet.privateRoute.gatewayId = none) :=
  ⟨by decide, C4_default_routes devConfig devNet (by decide)⟩

/-- C9: the full builder completes exactly on configurations with a
non-empty public CIDR list: `create` is `none` iff
`publicSubnet.cidrBlocks` is empty, because the NAT gateway construction
reads the first public subnet, an out-of-bounds access on an empty
sequence; under the non-empty precondition the error branch is
unreachable. -/
theorem C9_nonempty_public_required (c : NetworkConfig) :
    create c = none ↔ c.publicSubnet.cidrBlocks = [] := by
  rw [create_eq_map, Option.map_eq_none', createSubnets_getElem?_eq_none]
  simp [subnetsArgsOf]

lemma getElem?_enum_map {α β : Type} (l : List α) (f : Nat × α → β)
    (i : Nat) :
    (l.enum.map f)[i]? = (l[i]?).map fun x => f (i, x) := by
  cases hx : l[i]? <;> simp [List.getElem?_enum, hx]

/-- C3: in every returned bundle the NAT gateway is attached to the first
public subnet, never to any private subnet, and its allocation id is the
allocation id of the single elastic IP of the bundle (the bundle holds
exactly one NAT gateway and one elastic IP by construction). -/
theorem C3_nat_gateway_attachment (c : NetworkConfig) (net : Network)
    (h : create c = some net) :
    (∃ s0, net.publicSubnets[0]? = some s0 ∧
      net.natGateway.subnetId = s0.id) ∧
    (∀ s ∈ net.privateSubnets, net.natGateway.subnetId ≠ s.id) ∧
    net.natGateway.allocationId = net.natGatewayEip.allocationId := by
  obtain ⟨s0, h0, rfl⟩ := create_eq_some c net h
  refine ⟨⟨s0, ?_, ?_⟩, ?_, ?_⟩
  · simpa [bundleOf] using h0
  · simp [bundleOf]
  · intro s hs hne
    rw [getElem?_createSubnets] at h0
    rcases Option.map_eq_some'.mp h0 with ⟨cb0, hcb0, rfl⟩
    have hsmem : s ∈ createSubnets (subnetsArgsOf c .PRIVATE) := by
      simpa [bundleOf] using hs
    rcases mem_createSubnets _ s hsmem with ⟨i, cb, hcb, rfl⟩
    have hnames : (subnetAt (subnetsArgsOf c .PUBLIC) 0 cb0).name =
        (subnetAt (subnetsArgsOf c .PRIVATE) i cb).name := by
      simpa [bundleOf, Subnet.id, Ref.mk.injEq] using hne
    simp only [subnetAt, subnetsArgsOf] at hnames
    exact subnet_name_pub_ne_priv c.name _ _ hnames
  · simp [bundleOf]

/-- Witness for C3 at the specification's example configuration. -/
theorem C3_nat_gateway_attachment_witness :
    create devConfig = some devNet ∧
    ((∃ s0, devNet.publicSubnets[0]? = some s0 ∧
       devNet.natGateway.subnetId = s0.id) ∧
     (∀ s ∈ devNet.privateSubnets, devNet.natGateway.subnetId ≠ s.id) ∧
     devNet.natGateway.allocationId = devNet.natGatewayEip.allocationId) :=
  ⟨by decide, C3_nat_gateway_attachment devConfig devNet (by decide)⟩

/-- C5: per boundary, the bundle has as many route-table associations as
subnets; the i-th association references the i-th subnet of its own
boundary and its own boundary's route table (never the other boundary's),
and is named `{name}-{boundary}-rtb-assc-{i}`. -/
theorem C5_route_table_associations (c : NetworkConfig) (net : Network)
    (h : create c = some net) :
    net.publicRouteAssociations.length = net.publicSubnets.length ∧
    net.privateRouteAssociations.length = net.privateSubnets.length ∧
    (∀ (i : Nat) (a : SubnetRouteTableAssociation),
      net.publicRouteAssociations[i]? = some a →
      (∃ s, net.publicSubnets[i]? = some s ∧ a.subnetId = s.id) ∧
      a.routeTableId.resource = net.publicRouteTable.name ∧
      a.routeTableId.resource ≠ net.privateRouteTable.name ∧
      a.name = c.name ++ "-" ++ Boundary.PUBLIC.str ++ "-rtb-assc-" ++
        toString i) ∧
    (∀ (i : Nat) (a : SubnetRouteTableAssociation),
      net.privateRouteAssociations[i]? = some a →
      (∃ s, net.privateSubnets[i]? = some s ∧ a.subnetId = s.id) ∧
      a.routeTableId.resource = net.privateRouteTable.name ∧
      a.routeTableId.resource ≠ net.publicRouteTable.name ∧
      a.name = c.name ++ "-" ++ Boundary.PRIVATE.str ++ "-rtb-assc-" ++
        toString i) := by
  obtain ⟨s0, h0, rfl⟩ := create_eq_some c net h
  refine ⟨?_, ?_, ?_, ?_⟩
  · simp [bundleOf]
  · simp [bundleOf]
  · intro i a ha
    simp only [bundleOf] at ha
    rw [getElem?_enum_map] at ha
    rcases Option.map_eq_some'.mp ha with ⟨s, hsub, rfl⟩
    refine ⟨⟨s, by simpa [bundleOf] using hsub, rfl⟩, ?_, ?_, rfl⟩
    · simp [bundleOf, RouteTable.id]
    · simp only [bundleOf, RouteTable.id]
      exact rtb_name_pub_ne_priv c.name
  · intro i a ha
    simp only [bundleOf] at ha
    rw [getElem?_enum_map] at ha
    rcases Option.map_eq_some'.mp ha with ⟨s, hsub, rfl⟩
    refine ⟨⟨s, by simpa [bundleOf] using hsub, rfl⟩, ?_, ?_, rfl⟩
    · simp [bundleOf, RouteTable.routeTableId]
    · simp only [bundleOf, RouteTable.routeTableId]
      exact (rtb_name_pub_ne_priv c.name).symm

/-- Witness for C5 at the specification's example configuration. -/
theorem C5_route_table_associations_witness :
    create devConfig = some devNet ∧
    (devNet.publicRouteAssociations.length =
        devNet.publicSubnets.length ∧
     devNet.privateRouteAssociations.length =
        devNet.privateSubnets.length ∧
     (∀ (i : Nat) (a : SubnetRouteTableAssociation),
       devNet.publicRouteAssociations[i]? = some a →
       (∃ s, devNet.publicSubnets[i]? = some s ∧ a.subnetId = s.id) ∧
       a.routeTableId.resource = devNet.publicRouteTable.name ∧
       a.routeTableId.resource ≠ devNet.privateRouteTable.name ∧
       a.name = devConfig.name ++ "-" ++ Boundary.PUBLIC.str ++
         "-rtb-assc-" ++ toString i) ∧
     (∀ (i : Nat) (a : SubnetRouteTableAssociation),
       devNet.privateRouteAssociations[i]? = some a →
       (∃ s, devNet.privateSubnets[i]? = some s ∧ a.subnetId = s.id) ∧
       a.routeTableId.resource = devNet.privateRouteTable.name ∧
       a.routeTableId.resource ≠ devNet.publicRouteTable.name ∧
       a.name = devConfig.name ++ "-" ++ Boundary.PRIVATE.str ++
         "-rtb-assc-" ++ toString i)) :=
  ⟨by decide, C5_route_table_associations devConfig devNet (by decide)⟩

/-- C6: every subnet derived by `createSubnets` is named
`{name}-{boundary}-subnet-{availabilityZone}`, carries a `Name` tag whose
value is exactly that derived name, and keeps every caller-supplied tag of
the boundary's configuration unchanged alongside it. -/
theorem C6_subnet_tags (a : SubnetsArgs) (i : Nat) (s : Subnet)
    (h : (createSubnets a)[i]? = some s) :
    s.name = a.name ++ "-" ++ a.boundary.str ++ "-subnet-" ++
      jsInterp a.availabilityZones[i]? ∧
    s.tags = a.subnetConfig.tags.getD [] ++ [⟨"Name", s.name⟩] ∧
    (⟨"Name", s.name⟩ : Tag) ∈ s.tags ∧
    ∀ t ∈ a.subnetConfig.tags.getD [], t ∈ s.tags := by
  rw [getElem?_createSubnets] at h
  rcases Option.map_eq_some'.mp h with ⟨cb, hcb, rfl⟩
  refine ⟨rfl, rfl, ?_, ?_⟩
  · simp [subnetAt]
  · intro t ht
    simp only [subnetAt, List.mem_append]
    exact Or.inl ht

/-- Arguments with a caller-supplied non-`Name` tag, used to instantiate
C6 concretely. -/
def taggedArgs : SubnetsArgs :=
  { availabilityZones := ["a", "b"]
    boundary := .PUBLIC
    name := "dev"
    subnetConfig :=
      { cidrBlocks := ["10.0.1.0/24", "10.0.2.0/24"]
        tags := some [⟨"env", "dev"⟩] }
    vpcId := ⟨"dev-vpc", "vpcId"⟩ }

/-- Witness for C6 at the second subnet of `taggedArgs`. -/
theorem C6_subnet_tags_witness :
    (createSubnets taggedArgs)[1]? =
      some (subnetAt taggedArgs 1 "10.0.2.0/24") ∧
    ((subnetAt taggedArgs 1 "10.0.2.0/24").name =
      taggedArgs.name ++ "-" ++ taggedArgs.boundary.str ++ "-subnet-" ++
        jsInterp taggedArgs.availabilityZones[1]? ∧
     (subnetAt taggedArgs 1 "10.0.2.0/24").tags =
      taggedArgs.subnetConfig.tags.getD [] ++
        [⟨"Name", (subnetAt taggedArgs 1 "10.0.2.0/24").name⟩] ∧
     (⟨"Name", (subnetAt taggedArgs 1 "10.0.2.0/24").name⟩ : Tag) ∈
      (subnetAt taggedArgs 1 "10.0.2.0/24").tags ∧
     ∀ t ∈ taggedArgs.subnetConfig.tags.getD [],
      t ∈ (subnetAt taggedArgs 1 "10.0.2.0/24").tags) :=
  ⟨by decide, C6_subnet_tags taggedArgs 1 _ (by decide)⟩

/-- C10: the injected `Name` tag is appended after all caller tags and
never deduplicated: when the caller tags already hold exactly one tag with
key `Name` (value v), the derived subnet's tag list holds two `Name`
entries, the caller's value first and the derived resource name last. -/
theorem C10_duplicate_name_tag (a : SubnetsArgs) (i : Nat) (s : Subnet)
    (v : String)
    (hname : (a.subnetConfig.tags.getD []).filter
        (fun t => t.key == "Name") = [⟨"Name", v⟩])
    (h : (createSubnets a)[i]? = some s) :
    s.tags = a.subnetConfig.tags.getD [] ++ [⟨"Name", s.name⟩] ∧
    s.tags.filter (fun t => t.key == "Name") =
      [⟨"Name", v⟩, ⟨"Name", s.name⟩] := by
  rw [getElem?_createSubnets] at h
  rcases Option.map_eq_some'.mp h with ⟨cb, hcb, rfl⟩
  refine ⟨rfl, ?_⟩
  simp [subnetAt, List.filter_append, hname]

/-- Arguments whose caller tags already hold a `Name` tag. -/
def dupTagArgs : SubnetsArgs :=
  { availabilityZones := ["a"]
    boundary := .PRIVATE
    name := "dev"
    subnetConfig :=
      { cidrBlocks := ["10.0.9.0/24"]
        tags := some [⟨"Name", "custom"⟩, ⟨"env", "dev"⟩] }
    vpcId := ⟨"dev-vpc", "vpcId"⟩ }

/-- Witness for C10 at `dupTagArgs`. -/
theorem C10_duplicate_name_tag_witness :
    ((dupTagArgs.subnetConfig.tags.getD []).filter
        (fun t => t.key == "Name") = [⟨"Name", "custom"⟩] ∧
     (createSubnets dupTagArgs)[0]? =
        some (subnetAt dupTagArgs 0 "10.0.9.0/24")) ∧
    ((subnetAt dupTagArgs 0 "10.0.9.0/24").tags =
        dupTagArgs.subnetConfig.tags.getD [] ++
          [⟨"Name", (subnetAt dupTagArgs 0 "10.0.9.0/24").name⟩] ∧
     (subnetAt dupTagArgs 0 "10.0.9.0/24").tags.filter
        (fun t => t.key == "Name") =
      [⟨"Name", "custom"⟩,
       ⟨"Name", (subnetAt dupTagArgs 0 "10.0.9.0/24").name⟩]) :=
  ⟨⟨by decide, by decide⟩,
    C10_duplicate_name_tag dupTagArgs 0 _ "custom" (by decide) (by decide)⟩

/-- Configuration with more public CIDR blocks than availability zones
(zero zones, one public CIDR block). -/
def mismatchConfig : NetworkConfig :=
  { name := "mm"
    cidrBlock := "10.0.0.0/16"
    availabilityZones := []
    publicSubnet := { cidrBlocks := ["10.0.1.0/24"], tags := none }
    privateSubnet := { cidrBlocks := [], tags := none } }

/-- The bundle the full builder produces on `mismatchConfig`. -/
def mismatchNet : Network :=
  bundleOf mismatchConfig
    (subnetAt (subnetsArgsOf mismatchConfig .PUBLIC) 0 "10.0.1.0/24")

/-- Counterexample to C2 as stated: on `mismatchConfig` (no availability
zones, one public CIDR block) the builder produces one public subnet, not
`min availabilityZones.length cidrBlocks.length = 0` of them — the count
follows `cidrBlocks`, not the shorter list. -/
theorem C2_truncation_counterexample :
    create mismatchConfig = some mismatchNet ∧
    mismatchNet.publicSubnets.length = 1 ∧
    min mismatchConfig.availabilityZones.length
      mismatchConfig.publicSubnet.cidrBlocks.length = 0 ∧
    mismatchNet.publicSubnets.length ≠
      min mismatchConfig.availabilityZones.length
        mismatchConfig.publicSubnet.cidrBlocks.length :=
  ⟨by decide, by decide, by decide, by decide⟩

/-- C2 (amended): on a cardinality mismatch the builder still completes
(whenever the public CIDR list is non-empty) and produces exactly
`cidrBlocks.length` subnets per boundary — the subnet count follows the
CIDR list, with out-of-range availability-zone lookups yielding the
undefined zone, rather than truncating to the shorter list or failing. -/
theorem C2_count_follows_cidr_list (c : NetworkConfig) (net : Network)
    (hmis : c.availabilityZones.length ≠ c.publicSubnet.cidrBlocks.length ∨
      c.availabilityZones.length ≠ c.privateSubnet.cidrBlocks.length)
    (h : create c = some net) :
    net.publicSubnets.length = c.publicSubnet.cidrBlocks.length ∧
    net.privateSubnets.length = c.privateSubnet.cidrBlocks.length := by
  obtain ⟨s0, h0, rfl⟩ := create_eq_some c net h
  constructor <;> simp [bundleOf, length_createSubnets, subnetsArgsOf]

/-- Witness for the amended C2 at `mismatchConfig`. -/
theorem C2_count_follows_cidr_list_witness :
    ((mismatchConfig.availabilityZones.length ≠
        mismatchConfig.publicSubnet.cidrBlocks.length ∨
      mismatchConfig.availabilityZones.length ≠
        mismatchConfig.privateSubnet.cidrBlocks.length) ∧
     create mismatchConfig = some mismatchNet) ∧
    (mismatchNet.publicSubnets.length =
        mismatchConfig.publicSubnet.cidrBlocks.length ∧
     mismatchNet.privateSubnets.length =
        mismatchConfig.privateSubnet.cidrBlocks.length) :=
  ⟨⟨Or.inl (by decide), by decide⟩,
    C2_count_follows_cidr_list mismatchConfig mismatchNet
      (Or.inl (by decide)) (by decide)⟩

/-- All derived resource names of a bundle, in creation order. -/
def derivedNames (net : Network) : List String :=
  [net.vpc.name] ++
  net.privateSubnets.map Subnet.name ++
  net.publicSubnets.map Subnet.name ++
  [net.natGatewayEip.name, net.natGateway.name, net.internetGateway.name,
   net.publicRouteTable.name, net.publicRoute.name] ++
  net.publicRouteAssociations.map SubnetRouteTableAssociation.name ++
  [net.privateRouteTable.name, net.privateRoute.name] ++
  net.privateRouteAssociations.map SubnetRouteTableAssociation.name

/-- The derived names as a pure function of the configuration's name, its
availability-zone list, and the two per-boundary CIDR-block counts. -/
def nameSpec (n : String) (azs : List String) (pubLen privLen : Nat) :
    List String :=
  [n ++ "-vpc"] ++
  ((List.range privLen).map fun i =>
    n ++ "-" ++ Boundary.PRIVATE.str ++ "-subnet-" ++ jsInterp azs[i]?) ++
  ((List.range pubLen).map fun i =>
    n ++ "-" ++ Boundary.PUBLIC.str ++ "-subnet-" ++ jsInterp azs[i]?) ++
  [n ++ "-eip-nat", n ++ "-nat", n ++ "-igw", n ++ "-public-rtb",
   n ++ "-public-route"] ++
  ((List.range pubLen).map fun i =>
    n ++ "-" ++ Boundary.PUBLIC.str ++ "-rtb-assc-" ++ toString i) ++
  [n ++ "-private-rtb", n ++ "-private-route"] ++
  ((List.range privLen).map fun i =>
    n ++ "-" ++ Boundary.PRIVATE.str ++ "-rtb-assc-" ++ toString i)

lemma map_name_createSubnets (a : SubnetsArgs) :
    (createSubnets a).map Subnet.name =
      (List.range a.subnetConfig.cidrBlocks.length).map fun i =>
        a.name ++ "-" ++ a.boundary.str ++ "-subnet-" ++
          jsInterp a.availabilityZones[i]? := by
  rw [createSubnets, List.map_map,
    ← List.enum_map_fst a.subnetConfig.cidrBlocks, List.map_map]
  rfl

lemma map_name_enum_assocs (l : List Subnet)
    (f : Nat × Subnet → SubnetRouteTableAssociation) (g : Nat → String)
    (hf : ∀ p, (f p).name = g p.1) :
    (l.enum.map f).map SubnetRouteTableAssociation.name =
      (List.range l.length).map g := by
  rw [List.map_map, ← List.enum_map_fst l, List.map_map]
  exact List.map_congr_left fun p _ => hf p

lemma derivedNames_create (c : NetworkConfig) (net : Network)
    (h : create c = some net) :
    derivedNames net = nameSpec c.name c.availabilityZones
      c.publicSubnet.cidrBlocks.length
      c.privateSubnet.cidrBlocks.length := by
  obtain ⟨s0, h0, rfl⟩ := create_eq_some c net h
  simp only [derivedNames, bundleOf, nameSpec]
  rw [map_name_createSubnets, map_name_createSubnets,
    map_name_enum_assocs _ _
      (fun i => c.name ++ "-" ++ Boundary.PUBLIC.str ++ "-rtb-assc-" ++
        toString i) (fun p => rfl),
    map_name_enum_assocs _ _
      (fun i => c.name ++ "-" ++ Boundary.PRIVATE.str ++ "-rtb-assc-" ++
        toString i) (fun p => rfl),
    length_createSubnets, length_createSubnets]
  simp [subnetsArgsOf, vpcOf]

/-- C7: naming is deterministic and a pure function of the configuration's
name, the availability zones and the per-boundary index sets: two runs of
the full builder on configurations agreeing on name, availability zones
and CIDR-block counts (regardless of CIDR values or tags) derive exactly
the same resource names — no random or time-based component exists. -/
theorem C7_deterministic_naming (c1 c2 : NetworkConfig)
    (net1 net2 : Network)
    (h1 : create c1 = some net1) (h2 : create c2 = some net2)
    (hn : c1.name = c2.name)
    (haz : c1.availabilityZones = c2.availabilityZones)
    (hpub : c1.publicSubnet.cidrBlocks.length =
      c2.publicSubnet.cidrBlocks.length)
    (hpriv : c1.privateSubnet.cidrBlocks.length =
      c2.privateSubnet.cidrBlocks.length) :
    derivedNames net1 = derivedNames net2 := by
  rw [derivedNames_create c1 net1 h1, derivedNames_create c2 net2 h2, hn, haz,
    hpub, hpriv]

/-- A configuration sharing name, zones and counts with `cfgB` below. -/
def cfgA : NetworkConfig :=
  { name := "app"
    cidrBlock := "10.0.0.0/16"
    availabilityZones := ["a"]
    publicSubnet := { cidrBlocks := ["10.0.1.0/24"], tags := none }
    privateSubnet := { cidrBlocks := ["10.0.2.0/24"], tags := none } }

/-- Same name, zones and counts as `cfgA`, different CIDRs and tags. -/
def cfgB : NetworkConfig :=
  { name := "app"
    cidrBlock := "172.16.0.0/16"
    availabilityZones := ["a"]
    publicSubnet :=
      { cidrBlocks := ["172.16.1.0/24"], tags := some [⟨"env", "x"⟩] }
    privateSubnet := { cidrBlocks := ["172.16.2.0/24"], tags := none } }

/-- The bundle the full builder produces on `cfgA`. -/
def netA : Network :=
  bundleOf cfgA (subnetAt (subnetsArgsOf cfgA .PUBLIC) 0 "10.0.1.0/24")

/-- The bundle the full builder produces on `cfgB`. -/
def netB : Network :=
  bundleOf cfgB (subnetAt (subnetsArgsOf cfgB .PUBLIC) 0 "172.16.1.0/24")

/-- Witness for C7: two runs on `cfgA` and `cfgB` (equal name, zones and
counts, different CIDR values and tags) derive identical names. -/
theorem C7_deterministic_naming_witness :
    (create cfgA = some netA ∧ create cfgB = some netB ∧
     cfgA.name = cfgB.name ∧
     cfgA.availabilityZones = cfgB.availabilityZones ∧
     cfgA.publicSubnet.cidrBlocks.length =
        cfgB.publicSubnet.cidrBlocks.length ∧
     cfgA.privateSubnet.cidrBlocks.length =
        cfgB.privateSubnet.cidrBlocks.length) ∧
    derivedNames netA = derivedNames netB :=
  ⟨⟨by decide, by decide, by decide, by decide, by decide, by decide⟩,
    C7_deterministic_naming cfgA cfgB netA netB (by decide) (by decide)
      (by decide) (by decide) (by decide) (by decide)⟩

/-- C8: each reduced builder variant agrees with the full builder on the
fields it returns: the VPC-only variant returns exactly the full builder's
VPC (name `{name}-vpc`, the configured CIDR block, a single `Name` tag),
and the VPC-plus-subnets variant returns exactly the full builder's VPC and
both subnet sequences — the same derivation, configuration-reduced. -/
theorem C8_variant_refinement (c : NetworkConfig) (net : Network)
    (h : create c = some net) :
    (createVpcOnly c).vpc = net.vpc ∧
    (createVpcOnly c).vpc =
      { name := c.name ++ "-vpc", cidrBlock := c.cidrBlock,
        tags := [⟨"Name", c.name ++ "-vpc"⟩] } ∧
    (createVpcSubnets c).vpc = net.vpc ∧
    (createVpcSubnets c).privateSubnets = net.privateSubnets ∧
    (createVpcSubnets c).publicSubnets = net.publicSubnets := by
  obtain ⟨s0, h0, rfl⟩ := create_eq_some c net h
  refine ⟨?_, ?_, ?_, ?_, ?_⟩ <;>
    simp [createVpcOnly, createVpcSubnets, bundleOf, vpcOf, subnetsArgsOf,
      VPC.vpcId]

/-- Witness for C8 at the specification's example configuration. -/
theorem C8_variant_refinement_witness :
    create devConfig = some devNet ∧
    ((createVpcOnly devConfig).vpc = devNet.vpc ∧
     (createVpcOnly devConfig).vpc =
      { name := devConfig.name ++ "-vpc", cidrBlock := devConfig.cidrBlock,
        tags := [⟨"Name", devConfig.name ++ "-vpc"⟩] } ∧
     (createVpcSubnets devConfig).vpc = devNet.vpc ∧
     (createVpcSubnets devConfig).privateSubnets = devNet.privateSubnets ∧
     (createVpcSubnets devConfig).publicSubnets = devNet.publicSubnets) :=
  ⟨by decide, C8_variant_refinement devConfig devNet (by decide)⟩

/-- Configuration whose public CIDR list is empty. -/
def noPubConfig : NetworkConfig :=
  { name := "np"
    cidrBlock := "10.0.0.0/16"
    availabilityZones := ["a"]
    publicSubnet := { cidrBlocks := [], tags := none }
    privateSubnet := { cidrBlocks := ["10.0.1.0/24"], tags := none } }

/-- Witness for C9: on `noPubConfig` (empty public CIDR list) the full
builder cannot complete, and on the spec example it does. -/
theorem C9_nonempty_public_required_witness :
    create noPubConfig = none ∧ ¬ create devConfig = none :=
  ⟨(C9_nonempty_public_required noPubConfig).mpr (by decide),
    fun h => by
      have := (C9_nonempty_public_required devConfig).mp h
      exact absurd this (by decide)⟩
